import Mathlib

/-!
Shallow embedding of the banshee anomaly detector, translated from
`src/detector/detector.go` (package `detector`).

The file embeds the per-sample pipeline of the detector: the rule-matching
step `Detector.match` (here `Detector.matchMetric`, since `match` is a Lean
keyword), the scoring/persistence step `Detector.detect`, the matched-line
body of the connection handler `Detector.handle` (here
`Detector.handleMetric`), and the constructor `New` with the buffered
results channel of capacity `bufferedMetricResultsLimit`.

Collaborators that live outside the given source file (the hit cache of
`detector/cache.go`, `util.Match`, the `models` structs, the state store
`db.State` and the rule admin `db.Admin`) are modelled from the
specification's contracts, as marked on each definition. The cursor
(`cursor.Next`) is kept fully parametric: none of the embedded control flow
inspects the state it produces.

Side effects are made explicit: the hit cache and the state store are fields
of the `Detector` state threaded through each operation; the buffered
channel `rc` is a bounded list plus a drop counter (the `log.Warn` on the
full-channel branch); control-flow facts needed by frame claims (whether the
blacklist was scanned, whether the rule set was fetched, whether `Put` was
called) are recorded as boolean flags in the operations' results.
-/

namespace Banshee

/-- Modelled from the spec: glob/wildcard matching over metric names
(`util.Match`, not under `src/`; spec §4.3/§9 fixes only "glob-style
wildcards"). A star matches any sequence of characters; every other
character matches itself. Recursion is structural in the pattern. -/
def globMatch : List Char → List Char → Bool
  | [], s => s.isEmpty
  | '*' :: ps, s => (List.range (s.length + 1)).any (fun k => globMatch ps (s.drop k))
  | c :: ps, s =>
    match s with
    | [] => false
    | c2 :: s2 => c == c2 && globMatch ps s2

/-- Modelled from the spec: `util.Match(name, pattern)` decides whether a
metric name matches a glob pattern. -/
def utilMatch (name pattern : String) : Bool :=
  globMatch pattern.data name.data

/-- Modelled from the spec: a parsed metric sample (`models.Metric`, not
under `src/`): immutable name/timestamp/value plus the average and score
filled in by the scorer. The embedded detector code performs no arithmetic
on the numeric fields, so their carrier is immaterial here. -/
structure Metric where
  name : String
  stamp : Nat
  value : Int
  average : Int
  score : Int
  deriving DecidableEq, Repr

/-- Modelled from the spec: a whitelist rule (`models.Rule`, not under
`src/`): a glob pattern over metric names; its detection parameters are not
interpreted by the embedded code. -/
structure Rule where
  pattern : String
  deriving DecidableEq, Repr

/-- Modelled from the spec: one matching-cache entry,
`{matched : bool, rule-reference-or-none}` (spec §3). -/
structure CacheEntry where
  matched : Bool
  rule : Option Rule
  deriving DecidableEq, Repr

/-- Modelled from the spec: the hit cache (`detector/cache.go`, not under
`src/`; spec §4.2): per-name memo of the last matching decision, plus the
version token of the rule-set snapshot stored at last population. -/
structure HitCache where
  rulesToken : Option (List Rule)
  entries : List (String × CacheEntry)
  deriving DecidableEq, Repr

/-- Modelled from the spec: `newCache()` — the empty cache. -/
def newCache : HitCache :=
  { rulesToken := none, entries := [] }

/-- Modelled from the spec: `cache.hitWhiteListCache(m)` is the cache
lookup, `lookup(name) -> absent | (matched, rule?)` (spec §4.2 step 1 of
§4.3: "If present, return the cached verdict immediately"). Returns the Go
pair `(hit, verdict)`. -/
def HitCache.hitWhiteListCache (c : HitCache) (m : Metric) : Bool × Bool :=
  match c.entries.lookup m.name with
  | some e => (true, e.matched)
  | none => (false, false)

/-- Modelled from the spec: `cache.setWLC(m, rule?, verdict)` is
`record(name, matched, rule?)` (spec §4.2): it overwrites the entry for the
name (the newest binding shadows any older one). -/
def HitCache.setWLC (c : HitCache) (m : Metric) (r : Option Rule) (v : Bool) : HitCache :=
  { c with entries := (m.name, { matched := v, rule := r }) :: c.entries }

/-- Modelled from the spec: `cache.updateRules(rules)` is
`invalidateIfStale(currentRuleSetVersion)` (spec §4.2): it compares the
stored version token against the fetched snapshot and, when they differ,
clears the entire cache and stores the new token. -/
def HitCache.updateRules (c : HitCache) (rules : List Rule) : HitCache :=
  if c.rulesToken = some rules then c
  else { rulesToken := some rules, entries := [] }

/-- Modelled from the spec: errors surfaced by the state-store collaborator
(`statedb`, not under `src/`): the sentinel `statedb.ErrNotFound` and any
other error (spec §6: `get -> BaselineState | NotFound`; §7(e)). -/
inductive StoreErr where
  | notFound : StoreErr
  | other : Nat → StoreErr
  deriving DecidableEq, Repr

/-- Modelled from the spec: the state-store collaborator `db.State`
(spec §6): a keyed store of baseline states, together with the failure
behaviour the environment may exhibit on `Get` (a non-not-found error per
name) and on `Put`. -/
structure StateDB (St : Type) where
  data : List (String × St)
  getFail : String → Option Nat
  putFail : String → Option Nat

/-- Modelled from the spec: `db.State.Get(m)` returns the stored state for
the metric name, `ErrNotFound` when absent, or the injected failure. -/
def StateDB.get {St : Type} (db : StateDB St) (m : Metric) : Option St × Option StoreErr :=
  match db.getFail m.name with
  | some code => (none, some (StoreErr.other code))
  | none =>
    match db.data.lookup m.name with
    | some s => (some s, none)
    | none => (none, some StoreErr.notFound)

/-- Modelled from the spec: `db.State.Put(m, s)` stores the state under the
metric name, or fails with the injected error leaving the store unchanged. -/
def StateDB.put {St : Type} (db : StateDB St) (m : Metric) (s : St) :
    StateDB St × Option StoreErr :=
  match db.putFail m.name with
  | some code => (db, some (StoreErr.other code))
  | none => ({ db with data := (m.name, s) :: db.data }, none)

/-- The detector section of the configuration (`config.Config`, not under
`src/`): the fields read by `detector.go` are `Detector.Port`,
`Detector.BlackList` and `Detector.Factor` (spec §6 configuration
surface). -/
structure DetectorConfig where
  port : Nat
  blackList : List String
  factor : Int
  deriving DecidableEq, Repr

/-- The configuration surface consumed by the detector: `cfg.Detector` and
`cfg.LeastC()` (the minimum sample count handed to the cursor). -/
structure Config where
  detector : DetectorConfig
  leastC : Nat
  deriving DecidableEq, Repr

/-- Limit for buffered detected metric results, further results will be
dropped if this limit is reached (`bufferedMetricResultsLimit`,
detector.go line 24). -/
def bufferedMetricResultsLimit : Nat := 10 * 1024

/-- The detector state (struct `Detector`, detector.go lines 27–38), with
its collaborators made explicit: `rules` is the rule set currently served
by `db.Admin.GetRules()`; `state` is `db.State`; the buffered channel
`rc` is a bounded list (`rcCap` its capacity, `rcDropped` the count of
full-channel drops); `cursorNext` is `cursor.Next`, kept parametric. -/
structure Detector (St : Type) where
  cfg : Config
  rules : List Rule
  state : StateDB St
  rc : List Metric
  rcCap : Nat
  rcDropped : Nat
  hitCache : HitCache
  cursorNext : Option St → Metric → St

/-- `New(cfg, db)` (detector.go lines 41–49): builds a detector with the
results channel of capacity `bufferedMetricResultsLimit` and a fresh
cache. -/
def Detector.New {St : Type} (cfg : Config) (rules : List Rule) (st : StateDB St)
    (next : Option St → Metric → St) : Detector St :=
  { cfg := cfg
    rules := rules
    state := st
    rc := []
    rcCap := bufferedMetricResultsLimit
    rcDropped := 0
    hitCache := newCache
    cursorNext := next }

/-- The first rule of the list whose pattern matches the name — the loop
`for _, rule := range rules` of detector.go lines 130–135. -/
def firstRuleMatch (name : String) : List Rule → Option Rule
  | [] => none
  | r :: rs => if utilMatch name r.pattern then some r else firstRuleMatch name rs

/-- Result of one `match` invocation: the verdict, the updated detector
state, and control-flow facts (whether the blacklist loop was entered,
whether `db.Admin.GetRules()` was called). -/
structure MatchOut (St : Type) where
  verdict : Bool
  d : Detector St
  scannedBlacklist : Bool
  fetchedRules : Bool

/-- `Detector.match(m)` (detector.go lines 112–139; named `matchMetric`
because `match` is a Lean keyword). Cache lookup first, returning a cached
verdict immediately; then the blacklist loop with `setWLC(m, nil, false)`
on a hit; then `GetRules` followed by `updateRules`; then the whitelist
loop recording the first matching rule; on no match, return false with no
`setWLC` call. -/
def Detector.matchMetric {St : Type} (d : Detector St) (m : Metric) : MatchOut St :=
  let hv := d.hitCache.hitWhiteListCache m
  if hv.1 then
    { verdict := hv.2, d := d, scannedBlacklist := false, fetchedRules := false }
  else if d.cfg.detector.blackList.any (fun p => utilMatch m.name p) then
    { verdict := false
      d := { d with hitCache := d.hitCache.setWLC m none false }
      scannedBlacklist := true
      fetchedRules := false }
  else
    let rules := d.rules
    let c1 := d.hitCache.updateRules rules
    match firstRuleMatch m.name rules with
    | some r =>
      { verdict := true
        d := { d with hitCache := c1.setWLC m (some r) true }
        scannedBlacklist := true
        fetchedRules := true }
    | none =>
      { verdict := false
        d := { d with hitCache := c1 }
        scannedBlacklist := true
        fetchedRules := true }

/-- Result of one `detect` invocation: the updated detector, the returned
error, and control-flow facts (whether `cursor.Next` was evaluated, whether
`Put` was called). -/
structure DetectOut (St : Type) where
  d : Detector St
  err : Option StoreErr
  nextComputed : Bool
  putCalled : Bool

/-- `Detector.detect(m)` (detector.go lines 142–157): `Get` the previous
state; on an error other than `ErrNotFound`, return it; on `ErrNotFound`,
move the cursor from `nil`; otherwise move it from the fetched state; then
`Put` the next state and return `Put`'s error. -/
def Detector.detect {St : Type} (d : Detector St) (m : Metric) : DetectOut St :=
  let g := d.state.get m
  match g.2 with
  | some (StoreErr.other code) =>
    { d := d, err := some (StoreErr.other code), nextComputed := false, putCalled := false }
  | some StoreErr.notFound =>
    let n := d.cursorNext none m
    let p := d.state.put m n
    { d := { d with state := p.1 }, err := p.2, nextComputed := true, putCalled := true }
  | none =>
    let n := d.cursorNext g.1 m
    let p := d.state.put m n
    { d := { d with state := p.1 }, err := p.2, nextComputed := true, putCalled := true }

/-- The non-blocking send on the buffered results channel (detector.go
lines 102–106): `select { case d.rc <- m: default: log.Warn(..) }`.
Below capacity the metric is appended in arrival order; at capacity the
channel is left unchanged and the drop is counted (the `log.Warn`). -/
def Detector.tryEnqueue {St : Type} (d : Detector St) (m : Metric) : Detector St :=
  if d.rc.length < d.rcCap then { d with rc := d.rc ++ [m] }
  else { d with rcDropped := d.rcDropped + 1 }

/-- The per-parsed-metric body of `Detector.handle` (detector.go lines
94–107): run `match`; if it matched, run `detect`; on a `detect` error,
log and skip; on success, attempt the non-blocking enqueue. -/
def Detector.handleMetric {St : Type} (d : Detector St) (m : Metric) : Detector St :=
  let o := d.matchMetric m
  if o.verdict then
    let r := o.d.detect m
    match r.err with
    | some _ => r.d
    | none => r.d.tryEnqueue m
  else o.d

/-! Concrete fixtures used by witnesses and counterexamples. -/

/-- A sample named `"a"`. -/
def mA : Metric := { name := "a", stamp := 0, value := 0, average := 0, score := 0 }

/-- A sample named `"foo.bar"` (the spec §8 end-to-end blacklist example). -/
def mFoo : Metric := { name := "foo.bar", stamp := 1, value := 2, average := 0, score := 0 }

/-- A rule whose pattern is exactly `"a"`. -/
def ruleA : Rule := { pattern := "a" }

/-- A rule whose pattern matches every name. -/
def ruleStar : Rule := { pattern := "*" }

/-- A rule whose pattern is exactly `"b"` (matches nothing named `"a"`). -/
def ruleB : Rule := { pattern := "b" }

/-- A configuration with no blacklist. -/
def cfgEmpty : Config := { detector := { port := 2015, blackList := [], factor := 0 }, leastC := 1 }

/-- A configuration blacklisting `"foo.*"`. -/
def cfgBL : Config := { detector := { port := 2015, blackList := ["foo.*"], factor := 0 }, leastC := 1 }

/-- A configuration differing from `cfgEmpty` in every field. -/
def cfgAlt : Config := { detector := { port := 9999, blackList := ["x"], factor := 5 }, leastC := 3 }

/-- An empty state store in which every `Get` and `Put` succeeds. -/
def stEmpty : StateDB Int := { data := [], getFail := fun _ => none, putFail := fun _ => none }

/-- A state store whose `Get` fails with a non-not-found error. -/
def stGetFail : StateDB Int := { data := [], getFail := fun _ => some 7, putFail := fun _ => none }

/-- A trivial concrete cursor. -/
def nextZero : Option Int → Metric → Int := fun _ _ => 0

/-- A fresh detector whose rule set is `[ruleA]`. -/
def dRuleA : Detector Int := Detector.New cfgEmpty [ruleA] stEmpty nextZero

/-- `dRuleA` after one `match` on `mA`: its cache holds the verdict for
`"a"` recorded under the snapshot `[ruleA]`. -/
def dWarm : Detector Int := (dRuleA.matchMetric mA).d

/-- `dWarm` after the rule-administration side changes the rule set to `[]`:
the cache still holds the entry recorded under `[ruleA]`. -/
def dStale : Detector Int := { dWarm with rules := [] }

/-- A fresh detector with an empty rule set. -/
def dNoRules : Detector Int := Detector.New cfgEmpty [] stEmpty nextZero

/-- A fresh detector blacklisting `"foo.*"` while the whitelist rule
`ruleStar` would match every name. -/
def dBlack : Detector Int := Detector.New cfgBL [ruleStar] stEmpty nextZero

/-- A fresh detector with rule set `[ruleB, ruleA, ruleStar]`: both `ruleA`
and `ruleStar` match `"a"`, and `ruleA` comes first. -/
def dFirst : Detector Int := Detector.New cfgEmpty [ruleB, ruleA, ruleStar] stEmpty nextZero

/-- A fresh detector over a store whose `Get` fails. -/
def dGetFail : Detector Int := Detector.New cfgEmpty [ruleA] stGetFail nextZero

/-- A detector whose results channel is at capacity. -/
def dFull : Detector Int := { dRuleA with rcCap := 1, rc := [mFoo] }

/-! Helper lemmas shared by the claim theorems. -/

/-- `firstRuleMatch` really is the first match: it returns a rule at some
position whose pattern matches the name, with every earlier rule's pattern
failing to match. -/
theorem firstRuleMatch_first {name : String} {r : Rule} :
    ∀ {rs : List Rule}, firstRuleMatch name rs = some r →
      ∃ i, rs[i]? = some r ∧ utilMatch name r.pattern = true ∧
        ∀ (j : Nat) (r2 : Rule), j < i → rs[j]? = some r2 → utilMatch name r2.pattern = false := by
  intro rs
  induction rs with
  | nil => intro h; simp [firstRuleMatch] at h
  | cons r0 rs ih =>
    intro h
    by_cases h0 : utilMatch name r0.pattern
    · refine ⟨0, ?_, ?_, ?_⟩
      · simp [firstRuleMatch, h0] at h
        simp [h]
      · simp [firstRuleMatch, h0] at h
        rw [← h]; exact h0
      · intro j r2 hj
        omega
    · simp [firstRuleMatch, h0] at h
      obtain ⟨i, hi, hm, hbefore⟩ := ih h
      refine ⟨i + 1, by simpa using hi, hm, ?_⟩
      intro j r2 hj hg
      cases j with
      | zero =>
        simp at hg
        rw [← hg]
        simp [h0]
      | succ k =>
        exact hbefore k r2 (by omega) (by simpa using hg)

/-- Claim C1, counterexample: a cached verdict recorded under the rule-set
snapshot `[ruleA]` is returned by `match` while the current rule set is
`[]`. The run is reachable: `dRuleA.matchMetric mA` populates the cache
under `[ruleA]` (verdict true); after the rule set changes to `[]`
(`dStale`), `match` on the same name returns the cached `true` without
fetching the rule set, although the cache token `some [ruleA]` differs from
the current snapshot and no current rule matches the name. -/
theorem match_returns_stale_cached_verdict :
    (dRuleA.matchMetric mA).verdict = true ∧
    dStale.hitCache.rulesToken = some [ruleA] ∧
    dStale.hitCache.entries.lookup mA.name = some { matched := true, rule := some ruleA } ∧
    dStale.rules = [] ∧
    some dStale.rules ≠ dStale.hitCache.rulesToken ∧
    firstRuleMatch mA.name dStale.rules = none ∧
    (dStale.matchMetric mA).verdict = true ∧
    (dStale.matchMetric mA).fetchedRules = false := by
  decide

/-- Claim C1, amended: `match` returns a cached verdict immediately on a
cache hit without validating the cache against the current rule-set
version — even when the cache's stored version token differs from the
current rule set, the cached verdict is returned and the rule set is not
fetched; the cache is validated (`updateRules`) only on the miss path,
after the blacklist scan. -/
theorem matchMetric_cache_hit_skips_validation {St : Type} (d : Detector St) (m : Metric)
    (e : CacheEntry) (_hstale : d.hitCache.rulesToken ≠ some d.rules)
    (hhit : d.hitCache.entries.lookup m.name = some e) :
    (d.matchMetric m).verdict = e.matched ∧ (d.matchMetric m).fetchedRules = false := by
  simp [Detector.matchMetric, HitCache.hitWhiteListCache, hhit]

/-- Witness for `matchMetric_cache_hit_skips_validation` at the reachable
stale state `dStale`. -/
theorem matchMetric_cache_hit_skips_validation_witness :
    dStale.hitCache.rulesToken ≠ some dStale.rules ∧
    dStale.hitCache.entries.lookup mA.name = some { matched := true, rule := some ruleA } ∧
    ((dStale.matchMetric mA).verdict = true ∧ (dStale.matchMetric mA).fetchedRules = false) :=
  ⟨by decide, by decide,
    matchMetric_cache_hit_skips_validation dStale mA { matched := true, rule := some ruleA }
      (by decide) (by decide)⟩

/-- Claim C2, counterexample: for the fresh detector `dNoRules` (empty
cache, empty blacklist, empty rule set) and the sample `mA`, `match`
returns false but records nothing in the matching cache — the cache still
has no entry for the name afterwards, refuting "records
(matched=false, rule=none)". -/
theorem match_no_rule_records_nothing :
    dNoRules.hitCache.entries.lookup mA.name = none ∧
    (dNoRules.cfg.detector.blackList.any fun p => utilMatch mA.name p) = false ∧
    firstRuleMatch mA.name dNoRules.rules = none ∧
    (dNoRules.matchMetric mA).verdict = false ∧
    (dNoRules.matchMetric mA).d.hitCache.entries.lookup mA.name = none := by
  decide

/-- Claim C2, amended: for every metric sample not in the cache whose name
matches no blacklist pattern and no rule in the current rule set, `match`
returns false without recording any cache entry for the name; only the
cache's rule-set token is refreshed to the current snapshot. -/
theorem matchMetric_no_rule_false_without_recording {St : Type} (d : Detector St) (m : Metric)
    (hmiss : d.hitCache.entries.lookup m.name = none)
    (hbl : (d.cfg.detector.blackList.any fun p => utilMatch m.name p) = false)
    (hr : firstRuleMatch m.name d.rules = none) :
    (d.matchMetric m).verdict = false ∧
    (d.matchMetric m).d.hitCache.entries.lookup m.name = none ∧
    (d.matchMetric m).d.hitCache.rulesToken = some d.rules := by
  by_cases htok : d.hitCache.rulesToken = some d.rules <;>
    simp [Detector.matchMetric, HitCache.hitWhiteListCache, hmiss, hbl, hr,
      HitCache.updateRules, htok]

/-- Witness for `matchMetric_no_rule_false_without_recording` at
`dNoRules` and `mA`. -/
theorem matchMetric_no_rule_false_without_recording_witness :
    dNoRules.hitCache.entries.lookup mA.name = none ∧
    (dNoRules.cfg.detector.blackList.any fun p => utilMatch mA.name p) = false ∧
    firstRuleMatch mA.name dNoRules.rules = none ∧
    ((dNoRules.matchMetric mA).verdict = false ∧
      (dNoRules.matchMetric mA).d.hitCache.entries.lookup mA.name = none ∧
      (dNoRules.matchMetric mA).d.hitCache.rulesToken = some dNoRules.rules) :=
  ⟨by decide, by decide, by decide,
    matchMetric_no_rule_false_without_recording dNoRules mA (by decide) (by decide) (by decide)⟩

/-- Claim C3, counterexample: the capacity of the results channel created
by `New` is not taken from the configuration — two configurations that
differ in every configuration field yield the same capacity `10 * 1024`,
the unconfigurable constant `bufferedMetricResultsLimit`. -/
theorem New_capacity_ignores_configuration :
    cfgEmpty ≠ cfgAlt ∧
    (Detector.New cfgEmpty [] stEmpty nextZero).rcCap = 10 * 1024 ∧
    (Detector.New cfgAlt [] stEmpty nextZero).rcCap = 10 * 1024 := by
  decide

/-- Claim C3, amended: the Result Buffer's capacity is fixed at process
start to the compile-time constant `bufferedMetricResultsLimit = 10 * 1024`
for every configuration; it is not determined by any configuration
value. -/
theorem New_rcCap_constant {St : Type} (cfg : Config) (rules : List Rule) (st : StateDB St)
    (next : Option St → Metric → St) :
    (Detector.New cfg rules st next).rcCap = bufferedMetricResultsLimit ∧
    bufferedMetricResultsLimit = 10 * 1024 :=
  ⟨rfl, rfl⟩

/-- Claim C4: for every sample not in the cache whose name matches some
blacklist pattern, `match` returns false, records `(matched := false,
rule := none)` in the cache, and does not fetch the rule set — so the
verdict is independent of whatever whitelist rules exist. -/
theorem matchMetric_blacklist_rejects_and_caches {St : Type} (d : Detector St) (m : Metric)
    (hmiss : d.hitCache.entries.lookup m.name = none)
    (hbl : (d.cfg.detector.blackList.any fun p => utilMatch m.name p) = true) :
    (d.matchMetric m).verdict = false ∧
    (d.matchMetric m).d.hitCache.entries.lookup m.name =
      some { matched := false, rule := none } ∧
    (d.matchMetric m).fetchedRules = false := by
  simp [Detector.matchMetric, HitCache.hitWhiteListCache, hmiss, hbl, HitCache.setWLC]

/-- Witness for `matchMetric_blacklist_rejects_and_caches` at `dBlack` and
`mFoo`: the blacklist pattern `"foo.*"` matches, while the whitelist rule
`ruleStar` would also match the name. -/
theorem matchMetric_blacklist_rejects_and_caches_witness :
    dBlack.hitCache.entries.lookup mFoo.name = none ∧
    (dBlack.cfg.detector.blackList.any fun p => utilMatch mFoo.name p) = true ∧
    utilMatch mFoo.name ruleStar.pattern = true ∧
    dBlack.rules = [ruleStar] ∧
    ((dBlack.matchMetric mFoo).verdict = false ∧
      (dBlack.matchMetric mFoo).d.hitCache.entries.lookup mFoo.name =
        some { matched := false, rule := none } ∧
      (dBlack.matchMetric mFoo).fetchedRules = false) :=
  ⟨by decide, by decide, by decide, by decide,
    matchMetric_blacklist_rejects_and_caches dBlack mFoo (by decide) (by decide)⟩

/-- Claim C5: for every sample not in the cache and not blacklisted, if the
first matching rule of the rule set is `r`, then `match` returns true and
records `(matched := true, rule := r)` under the current snapshot's token;
`r` sits at a position of the rule set whose pattern matches the name while
every earlier rule's pattern does not; and any detector holding the same
rule set records the same rule for that name on this path (the selection is
a function of the rule set and the name only). -/
theorem matchMetric_first_rule_wins {St : Type} (d : Detector St) (m : Metric) (r : Rule)
    (hmiss : d.hitCache.entries.lookup m.name = none)
    (hbl : (d.cfg.detector.blackList.any fun p => utilMatch m.name p) = false)
    (hr : firstRuleMatch m.name d.rules = some r) :
    (d.matchMetric m).verdict = true ∧
    (d.matchMetric m).d.hitCache.entries.lookup m.name =
      some { matched := true, rule := some r } ∧
    (d.matchMetric m).d.hitCache.rulesToken = some d.rules ∧
    (∃ i, d.rules[i]? = some r ∧ utilMatch m.name r.pattern = true ∧
      ∀ (j : Nat) (r2 : Rule), j < i → d.rules[j]? = some r2 →
        utilMatch m.name r2.pattern = false) ∧
    (∀ {St2 : Type} (d2 : Detector St2), d2.rules = d.rules →
      d2.hitCache.entries.lookup m.name = none →
      (d2.cfg.detector.blackList.any fun p => utilMatch m.name p) = false →
      (d2.matchMetric m).d.hitCache.entries.lookup m.name =
        some { matched := true, rule := some r }) := by
  refine ⟨?_, ?_, ?_, firstRuleMatch_first hr, ?_⟩
  · simp [Detector.matchMetric, HitCache.hitWhiteListCache, hmiss, hbl, hr]
  · simp [Detector.matchMetric, HitCache.hitWhiteListCache, hmiss, hbl, hr, HitCache.setWLC]
  · by_cases htok : d.hitCache.rulesToken = some d.rules <;>
      simp [Detector.matchMetric, HitCache.hitWhiteListCache, hmiss, hbl, hr,
        HitCache.setWLC, HitCache.updateRules, htok]
  · intro St2 d2 hrules2 hmiss2 hbl2
    have hr2 : firstRuleMatch m.name d2.rules = some r := by rw [hrules2]; exact hr
    simp [Detector.matchMetric, HitCache.hitWhiteListCache, hmiss2, hbl2, hr2, HitCache.setWLC]

/-- Witness for `matchMetric_first_rule_wins` at `dFirst` (rule set
`[ruleB, ruleA, ruleStar]`) and `mA`: both `ruleA` and `ruleStar` match
`"a"`, and the earlier `ruleA` is selected. -/
theorem matchMetric_first_rule_wins_witness :
    dFirst.hitCache.entries.lookup mA.name = none ∧
    (dFirst.cfg.detector.blackList.any fun p => utilMatch mA.name p) = false ∧
    firstRuleMatch mA.name dFirst.rules = some ruleA ∧
    utilMatch mA.name ruleStar.pattern = true ∧
    ((dFirst.matchMetric mA).verdict = true ∧
      (dFirst.matchMetric mA).d.hitCache.entries.lookup mA.name =
        some { matched := true, rule := some ruleA } ∧
      (dFirst.matchMetric mA).d.hitCache.rulesToken = some dFirst.rules ∧
      (∃ i, dFirst.rules[i]? = some ruleA ∧ utilMatch mA.name ruleA.pattern = true ∧
        ∀ (j : Nat) (r2 : Rule), j < i → dFirst.rules[j]? = some r2 →
          utilMatch mA.name r2.pattern = false) ∧
      (∀ {St2 : Type} (d2 : Detector St2), d2.rules = dFirst.rules →
        d2.hitCache.entries.lookup mA.name = none →
        (d2.cfg.detector.blackList.any fun p => utilMatch mA.name p) = false →
        (d2.matchMetric mA).d.hitCache.entries.lookup mA.name =
          some { matched := true, rule := some ruleA })) :=
  ⟨by decide, by decide, by decide, by decide,
    matchMetric_first_rule_wins dFirst mA ruleA (by decide) (by decide) (by decide)⟩

/-- Claim C6: the enqueue of a scored sample into the results channel is
the total function `tryEnqueue` (the embedded `select`/`default`, which
never blocks the handler): below capacity the sample is appended in arrival
order with no drop recorded; at capacity the channel is left unchanged and
the drop is counted (the `log.Warn`). -/
theorem tryEnqueue_never_blocks {St : Type} (d : Detector St) (m : Metric) :
    (d.rc.length < d.rcCap →
      (d.tryEnqueue m).rc = d.rc ++ [m] ∧ (d.tryEnqueue m).rcDropped = d.rcDropped) ∧
    (d.rcCap ≤ d.rc.length →
      (d.tryEnqueue m).rc = d.rc ∧ (d.tryEnqueue m).rcDropped = d.rcDropped + 1) := by
  constructor
  · intro h
    simp [Detector.tryEnqueue, h]
  · intro h
    have h2 : ¬d.rc.length < d.rcCap := by omega
    simp [Detector.tryEnqueue, h2]

/-- Witness for `tryEnqueue_never_blocks` at the at-capacity detector
`dFull`. -/
theorem tryEnqueue_never_blocks_witness :
    (dFull.rc.length < dFull.rcCap →
      (dFull.tryEnqueue mA).rc = dFull.rc ++ [mA] ∧
      (dFull.tryEnqueue mA).rcDropped = dFull.rcDropped) ∧
    (dFull.rcCap ≤ dFull.rc.length →
      (dFull.tryEnqueue mA).rc = dFull.rc ∧
      (dFull.tryEnqueue mA).rcDropped = dFull.rcDropped + 1) :=
  tryEnqueue_never_blocks dFull mA

/-- Claim C7: `detect` succeeds iff `Get` did not fail with a
non-not-found error and `Put` succeeds; equivalently it returns an error
iff `Get` fails with an error other than not-found or `Put` fails.
Moreover a not-found `Get` is the expected no-prior-state case: `detect`
then proceeds exactly as the `Put` of the cursor's move from the empty
previous state (`nil`). -/
theorem detect_err_iff_store_failure {St : Type} (d : Detector St) (m : Metric) :
    ((d.detect m).err = none ↔
      ((d.state.get m).2 = none ∨ (d.state.get m).2 = some StoreErr.notFound) ∧
      ∀ n, (d.state.put m n).2 = none) ∧
    ((d.state.get m).2 = some StoreErr.notFound →
      d.detect m = { d := { d with state := (d.state.put m (d.cursorNext none m)).1 },
                     err := (d.state.put m (d.cursorNext none m)).2,
                     nextComputed := true, putCalled := true }) := by
  cases hg : d.state.getFail m.name with
  | some code =>
    simp [Detector.detect, StateDB.get, StateDB.put, hg]
  | none =>
    cases hd : d.state.data.lookup m.name with
    | some s =>
      cases hp : d.state.putFail m.name with
      | some code =>
        simp [Detector.detect, StateDB.get, StateDB.put, hg, hd, hp]
        exact ⟨d.cursorNext none m, trivial⟩
      | none => simp [Detector.detect, StateDB.get, StateDB.put, hg, hd, hp]
    | none =>
      cases hp : d.state.putFail m.name with
      | some code =>
        simp [Detector.detect, StateDB.get, StateDB.put, hg, hd, hp]
        exact ⟨d.cursorNext none m, trivial⟩
      | none => simp [Detector.detect, StateDB.get, StateDB.put, hg, hd, hp]

/-- Witness for `detect_err_iff_store_failure` at the fresh detector
`dRuleA` and `mA` (not-found `Get`, succeeding `Put`). -/
theorem detect_err_iff_store_failure_witness :
    ((dRuleA.detect mA).err = none ↔
      ((dRuleA.state.get mA).2 = none ∨ (dRuleA.state.get mA).2 = some StoreErr.notFound) ∧
      ∀ n, (dRuleA.state.put mA n).2 = none) ∧
    ((dRuleA.state.get mA).2 = some StoreErr.notFound →
      dRuleA.detect mA =
        { d := { dRuleA with state := (dRuleA.state.put mA (dRuleA.cursorNext none mA)).1 },
          err := (dRuleA.state.put mA (dRuleA.cursorNext none mA)).2,
          nextComputed := true, putCalled := true }) :=
  detect_err_iff_store_failure dRuleA mA

/-- Claim C8: on a cache hit, `match` returns the cached verdict with no
other effect — the detector state (cache included) is unchanged, the
blacklist loop is not entered, and the rule set is not fetched. -/
theorem matchMetric_cache_hit_frame {St : Type} (d : Detector St) (m : Metric) (e : CacheEntry)
    (hhit : d.hitCache.entries.lookup m.name = some e) :
    (d.matchMetric m).verdict = e.matched ∧ (d.matchMetric m).d = d ∧
    (d.matchMetric m).scannedBlacklist = false ∧ (d.matchMetric m).fetchedRules = false := by
  simp [Detector.matchMetric, HitCache.hitWhiteListCache, hhit]

/-- Witness for `matchMetric_cache_hit_frame` at the warmed-up detector
`dWarm`. -/
theorem matchMetric_cache_hit_frame_witness :
    dWarm.hitCache.entries.lookup mA.name = some { matched := true, rule := some ruleA } ∧
    ((dWarm.matchMetric mA).verdict = true ∧ (dWarm.matchMetric mA).d = dWarm ∧
      (dWarm.matchMetric mA).scannedBlacklist = false ∧
      (dWarm.matchMetric mA).fetchedRules = false) :=
  ⟨by decide,
    matchMetric_cache_hit_frame dWarm mA { matched := true, rule := some ruleA } (by decide)⟩

/-- Claim C9: when `Get` fails with an error other than not-found, `detect`
returns that error with the detector (its state store included) unchanged;
the cursor is not evaluated and `Put` is not called. -/
theorem detect_get_error_no_put {St : Type} (d : Detector St) (m : Metric) (code : Nat)
    (h : (d.state.get m).2 = some (StoreErr.other code)) :
    d.detect m = { d := d, err := some (StoreErr.other code),
                   nextComputed := false, putCalled := false } := by
  simp [Detector.detect, h]

/-- Witness for `detect_get_error_no_put` at `dGetFail` (whose store's
`Get` fails with error code 7). -/
theorem detect_get_error_no_put_witness :
    (dGetFail.state.get mA).2 = some (StoreErr.other 7) ∧
    dGetFail.detect mA = { d := dGetFail, err := some (StoreErr.other 7),
                           nextComputed := false, putCalled := false } :=
  ⟨by decide, detect_get_error_no_put dGetFail mA 7 (by decide)⟩

/-- Claim C10: for a matched sample whose `detect` succeeds, the handler
applies the non-blocking enqueue to the post-`detect` detector — the
baseline was persisted by `Put` inside `detect` before the enqueue is
attempted; `tryEnqueue` leaves the state store untouched on both of its
branches, so a buffer-full drop can neither prevent nor undo the baseline
update, which is present in the store for the sample's name. -/
theorem handleMetric_put_before_enqueue {St : Type} (d : Detector St) (m : Metric)
    (h1 : (d.matchMetric m).verdict = true)
    (h2 : ((d.matchMetric m).d.detect m).err = none) :
    d.handleMetric m = ((d.matchMetric m).d.detect m).d.tryEnqueue m ∧
    (((d.matchMetric m).d.detect m).d.tryEnqueue m).state =
      ((d.matchMetric m).d.detect m).d.state ∧
    ∃ n, ((d.matchMetric m).d.detect m).d.state.data.lookup m.name = some n := by
  refine ⟨?_, ?_, ?_⟩
  · simp [Detector.handleMetric, h1, h2]
  · by_cases hc :
      ((d.matchMetric m).d.detect m).d.rc.length < ((d.matchMetric m).d.detect m).d.rcCap <;>
      simp [Detector.tryEnqueue, hc]
  · cases hg : ((d.matchMetric m).d).state.getFail m.name with
    | some code =>
      exfalso
      simp [Detector.detect, StateDB.get, hg] at h2
    | none =>
      cases hd : ((d.matchMetric m).d).state.data.lookup m.name with
      | some s =>
        cases hp : ((d.matchMetric m).d).state.putFail m.name with
        | some code =>
          exfalso
          simp [Detector.detect, StateDB.get, StateDB.put, hg, hd, hp] at h2
        | none =>
          refine ⟨((d.matchMetric m).d).cursorNext (some s) m, ?_⟩
          simp [Detector.detect, StateDB.get, StateDB.put, hg, hd, hp]
      | none =>
        cases hp : ((d.matchMetric m).d).state.putFail m.name with
        | some code =>
          exfalso
          simp [Detector.detect, StateDB.get, StateDB.put, hg, hd, hp] at h2
        | none =>
          refine ⟨((d.matchMetric m).d).cursorNext none m, ?_⟩
          simp [Detector.detect, StateDB.get, StateDB.put, hg, hd, hp]

/-- Witness for `handleMetric_put_before_enqueue` at `dRuleA` and `mA`. -/
theorem handleMetric_put_before_enqueue_witness :
    (dRuleA.matchMetric mA).verdict = true ∧
    ((dRuleA.matchMetric mA).d.detect mA).err = none ∧
    (dRuleA.handleMetric mA = ((dRuleA.matchMetric mA).d.detect mA).d.tryEnqueue mA ∧
      (((dRuleA.matchMetric mA).d.detect mA).d.tryEnqueue mA).state =
        ((dRuleA.matchMetric mA).d.detect mA).d.state ∧
      ∃ n, ((dRuleA.matchMetric mA).d.detect mA).d.state.data.lookup mA.name = some n) :=
  ⟨by decide, by decide,
    handleMetric_put_before_enqueue dRuleA mA (by decide) (by decide)⟩

end Banshee
